import Mathlib

/-!
Shallow embedding of the geographic aggregation engine of `src/components/GoogleMap.tsx`:
the GEOID decoder `parseGeoId`, the margin classifier `getColorForMargin`, the rollup
aggregator `calculateAggregatedData`, and the two per-feature map style callbacks.
JavaScript numbers are modelled as `Int` (vote counts) and `Rat` (margins and style
numbers); possibly-absent GeoJSON properties are modelled as `Option`, with the
source's `x || 0` idiom rendered as `Option.getD 0`.
-/

namespace BreadMap

/-- US state FIPS codes to names mapping (`US_STATES` in the source),
as an association list in source order. -/
def US_STATES : List (String × String) :=
  [("01", "Alabama"), ("02", "Alaska"), ("04", "Arizona"), ("05", "Arkansas"),
   ("06", "California"), ("08", "Colorado"), ("09", "Connecticut"), ("10", "Delaware"),
   ("11", "District of Columbia"), ("12", "Florida"), ("13", "Georgia"), ("15", "Hawaii"),
   ("16", "Idaho"), ("17", "Illinois"), ("18", "Indiana"), ("19", "Iowa"),
   ("20", "Kansas"), ("21", "Kentucky"), ("22", "Louisiana"), ("23", "Maine"),
   ("24", "Maryland"), ("25", "Massachusetts"), ("26", "Michigan"), ("27", "Minnesota"),
   ("28", "Mississippi"), ("29", "Missouri"), ("30", "Montana"), ("31", "Nebraska"),
   ("32", "Nevada"), ("33", "New Hampshire"), ("34", "New Jersey"), ("35", "New Mexico"),
   ("36", "New York"), ("37", "North Carolina"), ("38", "North Dakota"), ("39", "Ohio"),
   ("40", "Oklahoma"), ("41", "Oregon"), ("42", "Pennsylvania"), ("44", "Rhode Island"),
   ("45", "South Carolina"), ("46", "South Dakota"), ("47", "Tennessee"), ("48", "Texas"),
   ("49", "Utah"), ("50", "Vermont"), ("51", "Virginia"), ("53", "Washington"),
   ("54", "West Virginia"), ("55", "Wisconsin"), ("56", "Wyoming"),
   ("60", "American Samoa"), ("66", "Guam"), ("69", "Northern Mariana Islands"),
   ("72", "Puerto Rico"), ("78", "Virgin Islands")]

/-- Colorado county FIPS codes to names mapping (`COLORADO_COUNTIES` in the source),
as an association list in source order. -/
def COLORADO_COUNTIES : List (String × String) :=
  [("001", "Adams"), ("003", "Alamosa"), ("005", "Arapahoe"), ("007", "Archuleta"),
   ("009", "Baca"), ("011", "Bent"), ("013", "Boulder"), ("014", "Broomfield"),
   ("015", "Chaffee"), ("017", "Cheyenne"), ("019", "Clear Creek"), ("021", "Conejos"),
   ("023", "Costilla"), ("025", "Crowley"), ("027", "Custer"), ("029", "Delta"),
   ("031", "Denver"), ("033", "Dolores"), ("035", "Douglas"), ("037", "Eagle"),
   ("039", "Elbert"), ("041", "El Paso"), ("043", "Fremont"), ("045", "Garfield"),
   ("047", "Gilpin"), ("049", "Grand"), ("051", "Gunnison"), ("053", "Hinsdale"),
   ("055", "Huerfano"), ("057", "Jackson"), ("059", "Jefferson"), ("061", "Kiowa"),
   ("063", "Kit Carson"), ("065", "Lake"), ("067", "La Plata"), ("069", "Larimer"),
   ("071", "Las Animas"), ("073", "Lincoln"), ("075", "Logan"), ("077", "Mesa"),
   ("079", "Mineral"), ("081", "Moffat"), ("083", "Montezuma"), ("085", "Montrose"),
   ("087", "Morgan"), ("089", "Otero"), ("091", "Ouray"), ("093", "Park"),
   ("095", "Phillips"), ("097", "Pitkin"), ("099", "Prowers"), ("101", "Pueblo"),
   ("103", "Rio Blanco"), ("105", "Rio Grande"), ("107", "Routt"), ("109", "Saguache"),
   ("111", "San Juan"), ("113", "San Miguel"), ("115", "Sedgwick"), ("117", "Summit"),
   ("119", "Teller"), ("121", "Washington"), ("123", "Weld"), ("125", "Yuma")]

/-- Result type of `parseGeoId`. -/
structure DecodedLocation where
  state : String
  county : String
  precinct : String
deriving Repr, DecidableEq

/-- The characters matched by the JavaScript regex metacharacter `.` (without the `s`
flag): any character except the four line terminators. -/
def jsDotMatches (c : Char) : Bool :=
  c != '\n' && c != '\r' && c != '\u2028' && c != '\u2029'

/-- The anchored regex `/^(\d{2})(\d{3})-(.+)$/` from `parseGeoId`: on a match, the
three capture groups (2-digit state code, 3-digit county code, non-empty precinct
remainder); on a non-match, `none`. `\d` is `[0-9]`, i.e. `Char.isDigit`. -/
def geoidMatch (s : String) : Option (String × String × String) :=
  match s.data with
  | c0 :: c1 :: c2 :: c3 :: c4 :: '-' :: rest =>
    if c0.isDigit && c1.isDigit && c2.isDigit && c3.isDigit && c4.isDigit
        && !rest.isEmpty && rest.all jsDotMatches then
      some (⟨[c0, c1]⟩, ⟨[c2, c3, c4]⟩, ⟨rest⟩)
    else none
  | _ => none

/-- `parseGeoId` from the source: regex match, then table lookups with the
fallback labels `"State " ++ code` / `"County " ++ code`, or the `Unknown` sentinel
on a non-match. (The source's lookup-or-fallback via `||` is `Option.getD`: every
table value is a non-empty string, so `||` falls back exactly on a missing key.) -/
def parseGeoId (geoid : String) : DecodedLocation :=
  match geoidMatch geoid with
  | none => { state := "Unknown", county := "Unknown", precinct := geoid }
  | some (stateCode, countyCode, precinctId) =>
    { state := (US_STATES.lookup stateCode).getD ("State " ++ stateCode)
      county := (COLORADO_COUNTIES.lookup countyCode).getD ("County " ++ countyCode)
      precinct := precinctId }

/-- `getColorForMargin` from the source: sign branch, then inclusive magnitude
thresholds 0.5 / 0.3 / 0.15 on `absMargin = |pctDemLead|`. -/
def getColorForMargin (pctDemLead : Rat) : String :=
  let absMargin := |pctDemLead|
  if pctDemLead > 0 then
    if absMargin ≥ 0.5 then "#1f77b4"
    else if absMargin ≥ 0.3 then "#5ba3d4"
    else if absMargin ≥ 0.15 then "#9ac9e3"
    else "#c6dbef"
  else
    if absMargin ≥ 0.5 then "#d62728"
    else if absMargin ≥ 0.3 then "#e55a5a"
    else if absMargin ≥ 0.15 then "#f28e8e"
    else "#f9c2c2"

/-- The four Democratic-side fill colors, strongest first. -/
def blueTokens : List String := ["#1f77b4", "#5ba3d4", "#9ac9e3", "#c6dbef"]

/-- The four Republican-side fill colors, strongest first. -/
def redTokens : List String := ["#d62728", "#e55a5a", "#f28e8e", "#f9c2c2"]

/-- The eight fill colors `getColorForMargin` can return. -/
def colorTokens : List String := blueTokens ++ redTokens

/-- The GeoJSON feature properties the component reads. `GEOID` is read without a
default in `calculateAggregatedData`, so it is modelled as a plain string; the four
numeric properties are read with the `x || 0` default and are modelled as options. -/
structure FeatureProperties where
  GEOID : String
  votes_dem : Option Int
  votes_rep : Option Int
  votes_total : Option Int
  pct_dem_lead : Option Rat
deriving Repr, DecidableEq

/-- A GeoJSON feature, as the component uses it: only its `properties` matter. -/
structure Feature where
  properties : FeatureProperties
deriving Repr, DecidableEq

/-- `type ViewType` restricted to the two aggregation levels accepted by
`calculateAggregatedData`. -/
inductive Level where
  | county : Level
  | state : Level
deriving Repr, DecidableEq

/-- `interface AggregatedData` from the source. -/
structure AggregatedData where
  name : String
  votesDem : Int
  votesRep : Int
  votesTotal : Int
  pctDemLead : Rat
  precinctCount : Nat
deriving Repr, DecidableEq

/-- The accumulator of the `reduce` call inside `calculateAggregatedData`. -/
structure Totals where
  votesDem : Int
  votesRep : Int
  votesTotal : Int
  precinctCount : Nat
deriving Repr, DecidableEq

/-- The filter predicate inside `calculateAggregatedData`: decoded state must equal
`targetState`, and at county level the decoded county must also equal `targetCounty`.
`targetCounty` is the optional parameter `targetCounty?: string`; the source compares
a string against it with `!==`, which a missing argument can never satisfy, hence the
comparison of `some loc.county` with the option. -/
def matchesScope (level : Level) (targetState : String) (targetCounty : Option String)
    (feature : Feature) : Bool :=
  let loc := parseGeoId feature.properties.GEOID
  if loc.state ≠ targetState then false
  else if level = Level.county ∧ some loc.county ≠ targetCounty then false
  else true

/-- The step function of the `reduce` call: add the three vote fields (missing ⇒ 0)
and bump the precinct count. -/
def accumulateFeature (acc : Totals) (feature : Feature) : Totals :=
  { votesDem := acc.votesDem + (feature.properties.votes_dem).getD 0
    votesRep := acc.votesRep + (feature.properties.votes_rep).getD 0
    votesTotal := acc.votesTotal + (feature.properties.votes_total).getD 0
    precinctCount := acc.precinctCount + 1 }

/-- The `name` field of the result, computed in both branches of the source as
the ternary on `level`. A county-level call without a county renders JavaScript's
`undefined` into the template literal, hence the `"undefined"` default. -/
def scopeName (level : Level) (targetState : String) (targetCounty : Option String) :
    String :=
  match level with
  | Level.state => targetState
  | Level.county => targetCounty.getD "undefined" ++ " County"

/-- `calculateAggregatedData` from the source. `rawElectionData` is `none` when the
collection is absent (`!rawElectionData?.features`), in which case the all-zero
summary is returned; otherwise filter, reduce, and derive `pctDemLead` from the
summed totals. -/
def calculateAggregatedData (rawElectionData : Option (List Feature)) (level : Level)
    (targetState : String) (targetCounty : Option String) : AggregatedData :=
  match rawElectionData with
  | none =>
    { name := scopeName level targetState targetCounty
      votesDem := 0, votesRep := 0, votesTotal := 0, pctDemLead := 0, precinctCount := 0 }
  | some features =>
    let relevantFeatures := features.filter (matchesScope level targetState targetCounty)
    let totals := relevantFeatures.foldl accumulateFeature ⟨0, 0, 0, 0⟩
    let pctDemLead : Rat :=
      if totals.votesTotal > 0 then
        ((totals.votesDem - totals.votesRep : Int) : Rat) / ((totals.votesTotal : Int) : Rat)
      else 0
    { name := scopeName level targetState targetCounty
      votesDem := totals.votesDem
      votesRep := totals.votesRep
      votesTotal := totals.votesTotal
      pctDemLead := pctDemLead
      precinctCount := totals.precinctCount }

/-- The style record the two `map.data.setStyle` callbacks return.
`strokeOpacity` is absent from the gray branch, hence the option. -/
structure MapStyle where
  fillColor : String
  fillOpacity : Rat
  strokeWeight : Rat
  strokeColor : String
  strokeOpacity : Option Rat
deriving Repr, DecidableEq

/-- The per-feature style callback installed by `loadElectionData` after the data
loads (and re-installed verbatim by the click handler): gray for `votes_total` zero
or missing, otherwise the classifier color. -/
def initialFeatureStyle (f : FeatureProperties) : MapStyle :=
  let votesTotal := (f.votes_total).getD 0
  let pctDemLead := (f.pct_dem_lead).getD 0
  if votesTotal = 0 then
    { fillColor := "#cccccc", fillOpacity := 0.7, strokeWeight := 0.5
      strokeColor := "#ffffff", strokeOpacity := none }
  else
    { fillColor := getColorForMargin pctDemLead, fillOpacity := 0.8, strokeWeight := 0.5
      strokeColor := "#ffffff", strokeOpacity := some 1 }

/-- The per-feature style callback installed by `updateMapHighlighting` on a
breadcrumb selection: the same gray-vs-classifier fill decision, with
highlight-dependent opacity and stroke. -/
def highlightFeatureStyle (level : Level) (stateName : String) (countyName : Option String)
    (f : FeatureProperties) : MapStyle :=
  let loc := parseGeoId f.GEOID
  let shouldHighlight : Bool :=
    match level with
    | Level.state => loc.state == stateName
    | Level.county => loc.state == stateName && some loc.county == countyName
  let votesTotal := (f.votes_total).getD 0
  let pctDemLead := (f.pct_dem_lead).getD 0
  if votesTotal = 0 then
    { fillColor := "#cccccc"
      fillOpacity := if shouldHighlight then 0.9 else 0.3
      strokeWeight := if shouldHighlight then 2 else 0.5
      strokeColor := if shouldHighlight then "#000000" else "#ffffff"
      strokeOpacity := none }
  else
    { fillColor := getColorForMargin pctDemLead
      fillOpacity := if shouldHighlight then 0.9 else 0.3
      strokeWeight := if shouldHighlight then 2 else 0.5
      strokeColor := if shouldHighlight then "#000000" else "#ffffff"
      strokeOpacity := some 1 }

/-- Scope membership in the spec's words (§4.3), for comparison with `matchesScope`:
decoded state name equals the scope's state and, when the scope is county-level, the
decoded county name equals the scope's county. -/
def specScopeFilter (level : Level) (scopeState scopeCounty : String)
    (feature : Feature) : Bool :=
  let loc := parseGeoId feature.properties.GEOID
  loc.state == scopeState && (level == Level.state || loc.county == scopeCounty)

/-- The GEOID shape exactly as the claim words it: two digits, three digits, a
literal hyphen, then one or more characters of any kind, anchored at both ends. -/
def claimGeoidShape (s : String) : Bool :=
  match s.data with
  | c0 :: c1 :: c2 :: c3 :: c4 :: '-' :: rest =>
    c0.isDigit && c1.isDigit && c2.isDigit && c3.isDigit && c4.isDigit && !rest.isEmpty
  | _ => false

/-- First synthetic Adams County, Colorado feature of spec §8. -/
def adamsFeature1 : Feature :=
  ⟨⟨"08001-1", some 100, some 50, some 150, none⟩⟩

/-- Second synthetic Adams County, Colorado feature of spec §8. -/
def adamsFeature2 : Feature :=
  ⟨⟨"08001-2", some 20, some 80, some 100, none⟩⟩

/-- Synthetic Denver County, Colorado feature of spec §8. -/
def denverFeature : Feature :=
  ⟨⟨"08031-1", some 10, some 10, some 20, none⟩⟩

/-- The three-feature synthetic collection of spec §8. -/
def syntheticFeatures : List Feature :=
  [adamsFeature1, adamsFeature2, denverFeature]

/-- The vote-dem reading of a feature, missing ⇒ 0. -/
def demOf (f : Feature) : Int := (f.properties.votes_dem).getD 0

/-- The vote-rep reading of a feature, missing ⇒ 0. -/
def repOf (f : Feature) : Int := (f.properties.votes_rep).getD 0

/-- The vote-total reading of a feature, missing ⇒ 0. -/
def totalOf (f : Feature) : Int := (f.properties.votes_total).getD 0

lemma foldl_accumulateFeature (fs : List Feature) (acc : Totals) :
    fs.foldl accumulateFeature acc =
      { votesDem := acc.votesDem + (fs.map demOf).sum
        votesRep := acc.votesRep + (fs.map repOf).sum
        votesTotal := acc.votesTotal + (fs.map totalOf).sum
        precinctCount := acc.precinctCount + fs.length } := by
  induction fs generalizing acc with
  | nil => simp
  | cons f fs ih =>
    simp only [List.foldl_cons, ih, List.map_cons, List.sum_cons, List.length_cons,
      accumulateFeature, demOf, repOf, totalOf, Totals.mk.injEq]
    refine ⟨by ring, by ring, by ring, by omega⟩

lemma calculateAggregatedData_some (fs : List Feature) (level : Level)
    (targetState : String) (targetCounty : Option String) :
    calculateAggregatedData (some fs) level targetState targetCounty =
      { name := scopeName level targetState targetCounty
        votesDem := ((fs.filter (matchesScope level targetState targetCounty)).map demOf).sum
        votesRep := ((fs.filter (matchesScope level targetState targetCounty)).map repOf).sum
        votesTotal := ((fs.filter (matchesScope level targetState targetCounty)).map totalOf).sum
        pctDemLead :=
          if 0 < ((fs.filter (matchesScope level targetState targetCounty)).map totalOf).sum then
            ((((fs.filter (matchesScope level targetState targetCounty)).map demOf).sum -
                ((fs.filter (matchesScope level targetState targetCounty)).map repOf).sum : Int) : Rat) /
              ((((fs.filter (matchesScope level targetState targetCounty)).map totalOf).sum : Int) : Rat)
          else 0
        precinctCount := (fs.filter (matchesScope level targetState targetCounty)).length } := by
  simp [calculateAggregatedData, foldl_accumulateFeature]

lemma matchesScope_some_eq_spec (level : Level) (st cty : String) (f : Feature) :
    matchesScope level st (some cty) f = specScopeFilter level st cty f := by
  unfold matchesScope specScopeFilter
  cases level <;>
    by_cases h1 : (parseGeoId f.properties.GEOID).state = st <;>
      by_cases h2 : (parseGeoId f.properties.GEOID).county = cty <;>
        simp [h1, h2]

lemma matchesScope_state_eq_spec (st : String) (tc : Option String) (cty : String)
    (f : Feature) :
    matchesScope Level.state st tc f = specScopeFilter Level.state st cty f := by
  unfold matchesScope specScopeFilter
  by_cases h1 : (parseGeoId f.properties.GEOID).state = st <;> simp [h1]

lemma parseGeoId_nomatch (s : String) (h : geoidMatch s = none) :
    parseGeoId s = { state := "Unknown", county := "Unknown", precinct := s } := by
  unfold parseGeoId
  rw [h]

lemma geoidMatch_wellformed (c0 c1 c2 c3 c4 : Char) (rest : List Char)
    (h0 : c0.isDigit = true) (h1 : c1.isDigit = true) (h2 : c2.isDigit = true)
    (h3 : c3.isDigit = true) (h4 : c4.isDigit = true)
    (hne : rest ≠ []) (hdot : rest.all jsDotMatches = true) :
    geoidMatch ⟨c0 :: c1 :: c2 :: c3 :: c4 :: '-' :: rest⟩ =
      some (⟨[c0, c1]⟩, ⟨[c2, c3, c4]⟩, ⟨rest⟩) := by
  have hempty : rest.isEmpty = false := by
    cases rest with
    | nil => exact absurd rfl hne
    | cons a l => rfl
  simp [geoidMatch, h0, h1, h2, h3, h4, hempty, hdot]

lemma unknown_not_a_state : "Unknown" ∉ US_STATES.map Prod.snd := by decide

/-- C3 counterexample: the string `"08001-\n"` has exactly the shape the claim
quantifies over — two digits, three digits, a literal hyphen, then one character —
yet `parseGeoId` returns the `Unknown` sentinel instead of the claimed
Colorado/Adams lookup, because the source regex metacharacter `.` does not match a
line terminator. -/
theorem parseGeoId_newline_refutes_claim :
    claimGeoidShape "08001-\n" = true ∧
    parseGeoId "08001-\n" =
      { state := "Unknown", county := "Unknown", precinct := "08001-\n" } :=
  ⟨by decide, by decide⟩

/-- C3 (amended): for every input string of the exact shape two digits, then three
digits, then a literal hyphen, then one or more characters none of which is a line
terminator, `parseGeoId` returns the state name looked up from the 2-digit code or
the fallback label `"State " ++ code` when absent from the table, the county name
looked up from the 3-digit code or the fallback `"County " ++ code` when absent, and
the verbatim remainder after the hyphen as precinct; in particular
`parseGeoId "08001-8134801173"` is Colorado / Adams / 8134801173 and
`parseGeoId "99999-X"` yields state `"State 99"` and county `"County 999"`. -/
theorem parseGeoId_wellformed_decodes :
    (∀ (c0 c1 c2 c3 c4 : Char) (rest : List Char),
      c0.isDigit = true → c1.isDigit = true → c2.isDigit = true →
      c3.isDigit = true → c4.isDigit = true →
      rest ≠ [] → rest.all jsDotMatches = true →
      parseGeoId ⟨c0 :: c1 :: c2 :: c3 :: c4 :: '-' :: rest⟩ =
        { state := (US_STATES.lookup ⟨[c0, c1]⟩).getD ("State " ++ String.mk [c0, c1])
          county := (COLORADO_COUNTIES.lookup ⟨[c2, c3, c4]⟩).getD
            ("County " ++ String.mk [c2, c3, c4])
          precinct := ⟨rest⟩ }) ∧
    parseGeoId "08001-8134801173" =
      { state := "Colorado", county := "Adams", precinct := "8134801173" } ∧
    (parseGeoId "99999-X").state = "State 99" ∧
    (parseGeoId "99999-X").county = "County 999" := by
  refine ⟨?_, by decide, by decide, by decide⟩
  intro c0 c1 c2 c3 c4 rest h0 h1 h2 h3 h4 hne hdot
  unfold parseGeoId
  rw [geoidMatch_wellformed c0 c1 c2 c3 c4 rest h0 h1 h2 h3 h4 hne hdot]

/-- Witness for the amended C3 theorem at the concrete well-formed input
`"08001-1"`, with every hypothesis discharged by evaluation. -/
theorem parseGeoId_wellformed_decodes_witness :
    ('0').isDigit = true ∧ ('8').isDigit = true ∧ ('1').isDigit = true ∧
    (['1'] : List Char) ≠ [] ∧ (['1'] : List Char).all jsDotMatches = true ∧
    parseGeoId ⟨['0', '8', '0', '0', '1', '-', '1']⟩ =
      { state := (US_STATES.lookup ⟨['0', '8']⟩).getD ("State " ++ String.mk ['0', '8'])
        county := (COLORADO_COUNTIES.lookup ⟨['0', '0', '1']⟩).getD
          ("County " ++ String.mk ['0', '0', '1'])
        precinct := ⟨['1']⟩ } :=
  ⟨by decide, by decide, by decide, by decide, by decide,
    parseGeoId_wellformed_decodes.1 '0' '8' '0' '0' '1' ['1'] (by decide) (by decide)
      (by decide) (by decide) (by decide) (by decide) (by decide)⟩

/-- C4: for every input string the regex does not match — wrong digit counts, a
missing hyphen, the empty string, or any other deviation — `parseGeoId` returns the
sentinel with state and county `"Unknown"` and the original input as precinct; the
function is total on strings, so malformed input yields the sentinel instead of
halting processing. -/
theorem parseGeoId_nomatch_sentinel :
    (∀ s : String, geoidMatch s = none →
      parseGeoId s = { state := "Unknown", county := "Unknown", precinct := s }) ∧
    parseGeoId "not-a-geoid" =
      { state := "Unknown", county := "Unknown", precinct := "not-a-geoid" } ∧
    parseGeoId "" = { state := "Unknown", county := "Unknown", precinct := "" } :=
  ⟨parseGeoId_nomatch, by decide, by decide⟩

/-- Witness for the C4 theorem at the concrete non-matching input `"12345"`
(no hyphen), with the non-match hypothesis discharged by evaluation. -/
theorem parseGeoId_nomatch_sentinel_witness :
    geoidMatch "12345" = none ∧
    parseGeoId "12345" = { state := "Unknown", county := "Unknown", precinct := "12345" } :=
  ⟨by decide, parseGeoId_nomatch_sentinel.1 "12345" (by decide)⟩

/-- C10: the 3-digit county code is resolved against the Colorado-only county table
regardless of the 2-digit state code: for every well-formed GEOID whose county code is
present in that table, the returned county is the corresponding Colorado county name
even when the state code denotes a different state; in particular
`parseGeoId "48031-X"` is state Texas but county Denver. -/
theorem parseGeoId_county_ignores_state :
    (∀ (c0 c1 c2 c3 c4 : Char) (rest : List Char) (countyName : String),
      c0.isDigit = true → c1.isDigit = true → c2.isDigit = true →
      c3.isDigit = true → c4.isDigit = true →
      rest ≠ [] → rest.all jsDotMatches = true →
      COLORADO_COUNTIES.lookup (String.mk [c2, c3, c4]) = some countyName →
      (parseGeoId ⟨c0 :: c1 :: c2 :: c3 :: c4 :: '-' :: rest⟩).county = countyName) ∧
    parseGeoId "48031-X" = { state := "Texas", county := "Denver", precinct := "X" } := by
  refine ⟨?_, by decide⟩
  intro c0 c1 c2 c3 c4 rest countyName h0 h1 h2 h3 h4 hne hdot hlook
  unfold parseGeoId
  rw [geoidMatch_wellformed c0 c1 c2 c3 c4 rest h0 h1 h2 h3 h4 hne hdot]
  simp [hlook]

/-- Witness for the C10 theorem at the concrete input `"48031-X"`: a Texas state
code with a county code from the Colorado table, every hypothesis discharged by
evaluation. -/
theorem parseGeoId_county_ignores_state_witness :
    COLORADO_COUNTIES.lookup (String.mk ['0', '3', '1']) = some "Denver" ∧
    (parseGeoId ⟨['4', '8', '0', '3', '1', '-', 'X']⟩).county = "Denver" :=
  ⟨by decide,
    parseGeoId_county_ignores_state.1 '4' '8' '0' '3' '1' ['X'] "Denver" (by decide)
      (by decide) (by decide) (by decide) (by decide) (by decide) (by decide) (by decide)⟩

/-- C5: for every margin `m` in `[-1, 1]`, `getColorForMargin m` is exactly one of
the eight fixed color tokens (four blue shades, four red shades), the bands being
delimited by the inclusive magnitude thresholds 0.5, 0.3, 0.15; in particular 0.5
and 0.50001 both get the strongest Democratic token `"#1f77b4"` and 0.499999 gets
the next band down `"#5ba3d4"`. -/
theorem getColorForMargin_eight_bands :
    (∀ m : Rat, -1 ≤ m → m ≤ 1 → getColorForMargin m ∈ colorTokens) ∧
    getColorForMargin 0.5 = "#1f77b4" ∧
    getColorForMargin 0.50001 = "#1f77b4" ∧
    getColorForMargin 0.499999 = "#5ba3d4" := by
  refine ⟨?_, ?_, ?_, ?_⟩
  · intro m hlo hhi
    unfold getColorForMargin
    by_cases hs : m > 0 <;> by_cases h5 : |m| ≥ 0.5 <;> by_cases h3 : |m| ≥ 0.3 <;>
      by_cases h15 : |m| ≥ 0.15 <;>
        simp [hs, h5, h3, h15, colorTokens, blueTokens, redTokens]
  · norm_num [getColorForMargin, abs_of_pos]
  · norm_num [getColorForMargin, abs_of_pos]
  · norm_num [getColorForMargin, abs_of_pos]

/-- Witness for the C5 theorem at the concrete in-range margin 0.5, with both bound
hypotheses discharged by evaluation. -/
theorem getColorForMargin_eight_bands_witness :
    (-1 : Rat) ≤ 0.5 ∧ (0.5 : Rat) ≤ 1 ∧ getColorForMargin 0.5 ∈ colorTokens :=
  ⟨by norm_num, by norm_num,
    getColorForMargin_eight_bands.1 0.5 (by norm_num) (by norm_num)⟩

/-- C6: `getColorForMargin` branches on the strict sign of `pctDemLead`: every
margin strictly greater than zero is classified with a blue token and every other
margin, zero included, with a red token; in particular `getColorForMargin 0` is the
Republican-side token `"#f9c2c2"`. -/
theorem getColorForMargin_sign_branch :
    (∀ m : Rat, getColorForMargin m ∈ (if 0 < m then blueTokens else redTokens)) ∧
    getColorForMargin 0 = "#f9c2c2" := by
  refine ⟨?_, by norm_num [getColorForMargin]⟩
  intro m
  unfold getColorForMargin
  by_cases hs : 0 < m <;> by_cases h5 : |m| ≥ 0.5 <;> by_cases h3 : |m| ≥ 0.3 <;>
    by_cases h15 : |m| ≥ 0.15 <;>
      simp [hs, h5, h3, h15, blueTokens, redTokens]

/-- C2: the aggregate's `pctDemLead` is derived once from its own summed totals —
`(sumDem - sumRep) / sumTotal` when the summed `votesTotal` is strictly positive and
`0` otherwise — for every collection (present or absent) and every scope. -/
theorem aggregate_pctDemLead_from_totals :
    ∀ (raw : Option (List Feature)) (level : Level) (targetState : String)
      (targetCounty : Option String),
      (calculateAggregatedData raw level targetState targetCounty).pctDemLead =
        if 0 < (calculateAggregatedData raw level targetState targetCounty).votesTotal then
          (((calculateAggregatedData raw level targetState targetCounty).votesDem -
              (calculateAggregatedData raw level targetState targetCounty).votesRep : Int) : Rat) /
            (((calculateAggregatedData raw level targetState targetCounty).votesTotal : Int) : Rat)
        else 0 := by
  intro raw level st tc
  cases raw with
  | none => simp [calculateAggregatedData]
  | some fs => simp [calculateAggregatedData_some]

/-- C9: both per-feature style callbacks — the one installed after data load and the
one installed on breadcrumb selection — test `votes_total` (missing ⇒ 0) for zero
first and fill with neutral gray `"#cccccc"` in that case; the margin classifier is
consulted only when the total is nonzero. -/
theorem style_gray_before_classifier :
    ∀ (level : Level) (stateName : String) (countyName : Option String)
      (f : FeatureProperties),
      (initialFeatureStyle f).fillColor =
        (if (f.votes_total).getD 0 = 0 then "#cccccc"
         else getColorForMargin ((f.pct_dem_lead).getD 0)) ∧
      (highlightFeatureStyle level stateName countyName f).fillColor =
        (if (f.votes_total).getD 0 = 0 then "#cccccc"
         else getColorForMargin ((f.pct_dem_lead).getD 0)) := by
  intro level st cn f
  refine ⟨?_, ?_⟩
  · simp only [initialFeatureStyle]
    split_ifs <;> rfl
  · simp only [highlightFeatureStyle]
    split_ifs <;> rfl

/-- C1: for every feature collection and every scope — county level with state and
county, or state level — the aggregate's `votesDem`, `votesRep` and `votesTotal` are
the sums (missing fields counted as zero) over exactly the features whose decoded
state name equals the scope's state and, for county scopes, whose decoded county
name equals the scope's county, with `precinctCount` the number of such features;
on the three synthetic Colorado features of spec §8 the Adams county scope yields
120 / 130 / 250 over 2 precincts, and the Colorado state scope sums all three rows
over 3 precincts. -/
theorem aggregate_sums_matching_features :
    (∀ (features : List Feature) (scopeState scopeCounty : String),
      (calculateAggregatedData (some features) Level.county scopeState (some scopeCounty)).votesDem =
        ((features.filter (specScopeFilter Level.county scopeState scopeCounty)).map demOf).sum ∧
      (calculateAggregatedData (some features) Level.county scopeState (some scopeCounty)).votesRep =
        ((features.filter (specScopeFilter Level.county scopeState scopeCounty)).map repOf).sum ∧
      (calculateAggregatedData (some features) Level.county scopeState (some scopeCounty)).votesTotal =
        ((features.filter (specScopeFilter Level.county scopeState scopeCounty)).map totalOf).sum ∧
      (calculateAggregatedData (some features) Level.county scopeState (some scopeCounty)).precinctCount =
        (features.filter (specScopeFilter Level.county scopeState scopeCounty)).length) ∧
    (∀ (features : List Feature) (scopeState anyCounty : String),
      (calculateAggregatedData (some features) Level.state scopeState none).votesDem =
        ((features.filter (specScopeFilter Level.state scopeState anyCounty)).map demOf).sum ∧
      (calculateAggregatedData (some features) Level.state scopeState none).votesRep =
        ((features.filter (specScopeFilter Level.state scopeState anyCounty)).map repOf).sum ∧
      (calculateAggregatedData (some features) Level.state scopeState none).votesTotal =
        ((features.filter (specScopeFilter Level.state scopeState anyCounty)).map totalOf).sum ∧
      (calculateAggregatedData (some features) Level.state scopeState none).precinctCount =
        (features.filter (specScopeFilter Level.state scopeState anyCounty)).length) ∧
    (calculateAggregatedData (some syntheticFeatures) Level.county "Colorado" (some "Adams")).votesDem = 120 ∧
    (calculateAggregatedData (some syntheticFeatures) Level.county "Colorado" (some "Adams")).votesRep = 130 ∧
    (calculateAggregatedData (some syntheticFeatures) Level.county "Colorado" (some "Adams")).votesTotal = 250 ∧
    (calculateAggregatedData (some syntheticFeatures) Level.county "Colorado" (some "Adams")).precinctCount = 2 ∧
    (calculateAggregatedData (some syntheticFeatures) Level.state "Colorado" none).votesDem = 130 ∧
    (calculateAggregatedData (some syntheticFeatures) Level.state "Colorado" none).votesRep = 140 ∧
    (calculateAggregatedData (some syntheticFeatures) Level.state "Colorado" none).votesTotal = 270 ∧
    (calculateAggregatedData (some syntheticFeatures) Level.state "Colorado" none).precinctCount = 3 := by
  refine ⟨?_, ?_, by decide, by decide, by decide, by decide, by decide, by decide,
    by decide, by decide⟩
  · intro fs st cty
    have hfilter : fs.filter (matchesScope Level.county st (some cty)) =
        fs.filter (specScopeFilter Level.county st cty) :=
      List.filter_congr (fun f _ => matchesScope_some_eq_spec Level.county st cty f)
    rw [calculateAggregatedData_some]
    simp [hfilter]
  · intro fs st cty
    have hfilter : fs.filter (matchesScope Level.state st none) =
        fs.filter (specScopeFilter Level.state st cty) :=
      List.filter_congr (fun f _ => matchesScope_state_eq_spec st none cty f)
    rw [calculateAggregatedData_some]
    simp [hfilter]

/-- C7: a feature whose GEOID fails the regex decodes to the `Unknown` sentinel and
therefore never matches a scope whose state name is a real name from the state
table: it is silently excluded from the aggregate's sums and from `precinctCount`,
for every scope level and county argument. -/
theorem malformed_geoid_excluded :
    ∀ (f : Feature) (fs : List Feature) (level : Level) (targetState : String)
      (targetCounty : Option String),
      geoidMatch f.properties.GEOID = none →
      targetState ∈ US_STATES.map Prod.snd →
      matchesScope level targetState targetCounty f = false ∧
      calculateAggregatedData (some (f :: fs)) level targetState targetCounty =
        calculateAggregatedData (some fs) level targetState targetCounty := by
  intro f fs level st tc hmatch hst
  have hstate : (parseGeoId f.properties.GEOID).state = "Unknown" := by
    rw [parseGeoId_nomatch _ hmatch]
  have hne : (parseGeoId f.properties.GEOID).state ≠ st := by
    rw [hstate]
    intro h
    exact unknown_not_a_state (h ▸ hst)
  have hms : matchesScope level st tc f = false := by
    unfold matchesScope
    simp [hne]
  refine ⟨hms, ?_⟩
  rw [calculateAggregatedData_some, calculateAggregatedData_some]
  simp [List.filter_cons, hms]

/-- Witness for the C7 theorem: a feature with the undecodable GEOID `"oops"` in
front of the empty collection leaves the Colorado state aggregate unchanged; both
hypotheses are discharged by evaluation. -/
theorem malformed_geoid_excluded_witness :
    geoidMatch "oops" = none ∧
    "Colorado" ∈ US_STATES.map Prod.snd ∧
    (matchesScope Level.state "Colorado" none ⟨⟨"oops", none, none, none, none⟩⟩ = false ∧
      calculateAggregatedData (some [⟨⟨"oops", none, none, none, none⟩⟩]) Level.state "Colorado" none =
        calculateAggregatedData (some []) Level.state "Colorado" none) :=
  ⟨by decide, by decide,
    malformed_geoid_excluded ⟨⟨"oops", none, none, none, none⟩⟩ [] Level.state "Colorado"
      none (by decide) (by decide)⟩

/-- C8: whenever the scope's match set is empty — the collection is absent, empty,
or simply contains no matching feature — the aggregate is the all-zero summary with
`precinctCount = 0`, and its `name` is still populated from the requested scope; in
particular aggregating the empty collection at state level Colorado yields the
all-zero summary named `"Colorado"`. -/
theorem empty_scope_all_zero :
    (∀ (raw : Option (List Feature)) (level : Level) (targetState : String)
      (targetCounty : Option String),
      (∀ fs, raw = some fs → fs.filter (matchesScope level targetState targetCounty) = []) →
      calculateAggregatedData raw level targetState targetCounty =
        { name := scopeName level targetState targetCounty, votesDem := 0, votesRep := 0,
          votesTotal := 0, pctDemLead := 0, precinctCount := 0 }) ∧
    calculateAggregatedData (some []) Level.state "Colorado" none =
      { name := "Colorado", votesDem := 0, votesRep := 0, votesTotal := 0,
        pctDemLead := 0, precinctCount := 0 } := by
  refine ⟨?_, by decide⟩
  intro raw level st tc hempty
  cases raw with
  | none => rfl
  | some fs =>
    rw [calculateAggregatedData_some, hempty fs rfl]
    simp

/-- Witness for the C8 theorem at the empty collection and the Adams county scope,
with the empty-match-set hypothesis discharged by evaluation. -/
theorem empty_scope_all_zero_witness :
    calculateAggregatedData (some []) Level.county "Colorado" (some "Adams") =
      { name := scopeName Level.county "Colorado" (some "Adams"), votesDem := 0,
        votesRep := 0, votesTotal := 0, pctDemLead := 0, precinctCount := 0 } :=
  empty_scope_all_zero.1 (some []) Level.county "Colorado" (some "Adams")
    (fun fs h => by injection h with h2; cases h2; rfl)

end BreadMap
